import Mathlib

/-!
Verification of the shimmy vision pipeline (src/vision.rs, src/vision_license.rs).

Modelling conventions used throughout this development:
* serde_json values are embedded as the inductive `Json`; serde numbers keep the
  three-way representation of serde_json::Number (u64 / negative i64 / float),
  with floats idealized as exact rationals.
* The JSON text parser (serde_json::from_str) is an external crate, so it is a
  parameter (`String → Option Json`) of every function that calls it.
* Timestamps (chrono::DateTime<Utc>) are integers counting seconds;
  chrono::Duration::hours 24 is 86400.
* Rust strings are modelled at character granularity (the source only indexes at
  positions of ASCII characters found by find/rfind).
* Fallible Rust code returns Except; a Rust panic is modelled by an outer
  Option, with `none` standing for the panic.
* u32 counters are modelled as Nat (the claims only exercise small values);
  the one place the source truncates a u64 to u32 is modelled by `% 2 ^ 32`.
-/

/-- serde_json::Value, with Number kept as in serde_json (PosInt u64,
NegInt i64, Float idealized as an exact rational). -/
inductive Json where
  | null : Json
  | bool : Bool → Json
  | posInt : Nat → Json
  | negInt : Int → Json
  | float : Rat → Json
  | str : String → Json
  | arr : List Json → Json
  | obj : List (String × Json) → Json

/-- Lookup in a JSON object association list (serde_json map get). -/
def jlookup : List (String × Json) → String → Option Json
  | [], _ => none
  | (k, v) :: rest, key => if k = key then some v else jlookup rest key

/-- serde_json::Value::get(key): some value for object members, none otherwise. -/
def Json.jget : Json → String → Option Json
  | .obj fields, key => jlookup fields key
  | _, _ => none

/-- serde_json::Value::as_bool. -/
def Json.as_bool : Json → Option Bool
  | .bool b => some b
  | _ => none

/-- serde_json::Value::as_u64: only a nonnegative integer number. -/
def Json.as_u64 : Json → Option Nat
  | .posInt n => some n
  | _ => none

/-- serde_json::Value::as_f64 (floats idealized as rationals). -/
def Json.as_f64 : Json → Option Rat
  | .posInt n => some (n : Rat)
  | .negInt n => some (n : Rat)
  | .float q => some q
  | _ => none

/-- serde_json::Value::as_str. -/
def Json.as_str : Json → Option String
  | .str s => some s
  | _ => none

/-- serde_json::Value::as_array. -/
def Json.as_array : Json → Option (List Json)
  | .arr xs => some xs
  | _ => none

/-- serde_json::Value::as_object (as an association list). -/
def Json.as_object : Json → Option (List (String × Json))
  | .obj fields => some fields
  | _ => none

/-- HashMap::contains_key on the association-list model. -/
def jcontains (m : List (String × Json)) (key : String) : Bool :=
  (jlookup m key).isSome

/-- HashMap::insert on the association-list model (replace or append). -/
def jinsert : List (String × Json) → String → Json → List (String × Json)
  | [], key, v => [(key, v)]
  | (k, w) :: rest, key, v =>
      if k = key then (k, v) :: rest else (k, w) :: jinsert rest key v

/-- LicenseValidation (vision_license.rs): verdict from the remote authority. -/
structure LicenseValidation where
  valid : Bool
  entitlements : List (String × Json)
  expires_at : Option String
  meta : List (String × Json)

/-- CachedLicense (vision_license.rs): the on-disk / in-memory cache entry. -/
structure CachedLicense where
  key : String
  validation : LicenseValidation
  cached_at : Int
  expires_at : Option Int

/-- UsageStats (vision_license.rs): metering counters. -/
structure UsageStats where
  requests_today : Nat
  requests_this_month : Nat
  last_reset : Int
deriving DecidableEq

/-- VisionLicenseError (vision_license.rs). -/
inductive VisionLicenseError where
  | MissingLicense : VisionLicenseError
  | ValidationFailed : String → VisionLicenseError
  | InvalidLicense : VisionLicenseError
  | FeatureNotEnabled : VisionLicenseError
  | UsageLimitExceeded : VisionLicenseError
deriving DecidableEq

/-- The freshness test of validate_license (vision_license.rs lines 104-115):
the cached entry is for the same key and either carries an expiry with
now < expiry + 24h, or carries none and now - cached_at < 24h. -/
def cacheFresh (now : Int) (license_key : String) (c : CachedLicense) : Bool :=
  c.key = license_key &&
    (match c.expires_at with
     | some expires => decide (now < expires + 86400)
     | none => decide (now - c.cached_at < 86400))

/-- State shared by the license manager: in-memory cache, its on-disk copy,
the usage counters, and their on-disk copy. -/
structure LicenseState where
  mem : Option CachedLicense
  disk : Option CachedLicense
  usage : UsageStats
  usage_disk : Option UsageStats

/-- Environment of the license manager: current time, the remote authority
outcome per key, whether the disk writes succeed, and the external RFC3339
timestamp parser used when caching a verdict. -/
structure LicenseEnv where
  now : Int
  remote : String → Except String LicenseValidation
  disk_write_ok : Bool
  usage_write_ok : Bool
  parse_rfc3339 : String → Option Int

/-- Outcome of validate_license: the returned verdict (or transport error),
the updated state, and whether the remote authority was called. -/
structure ValidateOutcome where
  result : Except String LicenseValidation
  state : LicenseState
  remote_called : Bool

/-- validate_license (vision_license.rs lines 99-140): reuse a fresh cached
verdict for the same key, otherwise call the remote authority and overwrite
the cache (disk first, then memory) with the new verdict. -/
def validate_license (env : LicenseEnv) (st : LicenseState) (license_key : String) :
    ValidateOutcome :=
  match st.mem with
  | some cached =>
      if cacheFresh env.now license_key cached then
        { result := .ok cached.validation, state := st, remote_called := false }
      else
        validateRemote env st license_key
  | none => validateRemote env st license_key
where
  validateRemote (env : LicenseEnv) (st : LicenseState) (license_key : String) :
      ValidateOutcome :=
    match env.remote license_key with
    | .error e => { result := .error e, state := st, remote_called := true }
    | .ok validation =>
        let cached : CachedLicense :=
          { key := license_key
            validation := validation
            cached_at := env.now
            expires_at := validation.expires_at.bind env.parse_rfc3339 }
        if env.disk_write_ok then
          { result := .ok validation
            state := { st with disk := some cached, mem := some cached }
            remote_called := true }
        else
          { result := .error "license cache write failed"
            state := st
            remote_called := true }

/-- check_vision_access (vision_license.rs lines 143-185): dev-mode bypass,
then key presence, verdict validity, vision entitlement, and the monthly cap
(read via as_u64 and truncated to u32 by the source's cast). -/
def check_vision_access (dev_mode : Bool) (env : LicenseEnv) (st : LicenseState)
    (license_key : Option String) : Except VisionLicenseError Unit × LicenseState × Bool :=
  if dev_mode then (.ok (), st, false)
  else
    match license_key with
    | none => (.error .MissingLicense, st, false)
    | some key =>
        let out := validate_license env st key
        match out.result with
        | .error e => (.error (.ValidationFailed e), out.state, out.remote_called)
        | .ok validation =>
            if !validation.valid then
              (.error .InvalidLicense, out.state, out.remote_called)
            else
              match jlookup validation.entitlements "vision" with
              | none => (.error .FeatureNotEnabled, out.state, out.remote_called)
              | some vision_enabled =>
                  if !(vision_enabled.as_bool.getD false) then
                    (.error .FeatureNotEnabled, out.state, out.remote_called)
                  else
                    match jlookup validation.entitlements "monthly_cap" with
                    | some monthly_cap =>
                        match monthly_cap.as_u64 with
                        | some cap =>
                            if out.state.usage.requests_this_month ≥ cap % 2 ^ 32 then
                              (.error .UsageLimitExceeded, out.state, out.remote_called)
                            else (.ok (), out.state, out.remote_called)
                        | none => (.ok (), out.state, out.remote_called)
                    | none => (.ok (), out.state, out.remote_called)

/-- Truncating (toward zero) division, as Rust i64 division; used for
chrono Duration::num_days. -/
def tdiv86400 (secs : Int) : Int :=
  Int.tdiv secs 86400

/-- The pure counter update of record_usage (vision_license.rs lines 188-209):
reset the daily counter after ≥ 1 day, the monthly counter (and last_reset)
after ≥ 30 days, then increment both. -/
def record_usage_counters (now : Int) (u : UsageStats) : UsageStats :=
  let u1 := if tdiv86400 (now - u.last_reset) ≥ 1 then { u with requests_today := 0 } else u
  let u2 :=
    if tdiv86400 (now - u1.last_reset) ≥ 30 then
      { u1 with requests_this_month := 0, last_reset := now }
    else u1
  { u2 with
    requests_today := u2.requests_today + 1
    requests_this_month := u2.requests_this_month + 1 }

/-- record_usage including persistence: the in-memory counters are mutated
first; the disk copy is updated only if the write succeeds, and a failed
write surfaces as an error (after the in-memory mutation). -/
def record_usage (env : LicenseEnv) (st : LicenseState) :
    Except String Unit × LicenseState :=
  let u := record_usage_counters env.now st.usage
  if env.usage_write_ok then
    (.ok (), { st with usage := u, usage_disk := some u })
  else
    (.error "usage stats write failed", { st with usage := u })

/-- The entitlement-extraction loop of call_keygen_validate
(vision_license.rs lines 273-296): one entitlement per relationship item
exposing attributes.code, value hard-coded true. -/
def keygenEntitlements (data : Option Json) : List (String × Json) :=
  match data with
  | none => []
  | some d =>
      match (((d.jget "relationships").bind (fun rels => rels.jget "entitlements")).bind
          (fun ents => ents.jget "data")).bind Json.as_array with
      | none => []
      | some items =>
          items.foldl
            (fun acc ent =>
              match ((ent.jget "attributes").bind (fun attrs => attrs.jget "code")).bind
                  Json.as_str with
              | some code => jinsert acc code (Json.bool true)
              | none => acc)
            []

/-- The response mapping of call_keygen_validate (vision_license.rs lines
271-327): extract entitlements, inject a default vision entitlement for valid
keys and a default monthly_cap of 1000, and build the LicenseValidation
(expires_at is hard-coded none: Keygen does not return an expiry here). -/
def call_keygen_map (valid : Bool) (code : String) (detail : Option String)
    (data : Option Json) : LicenseValidation :=
  let ents0 := keygenEntitlements data
  let ents1 :=
    if valid && !(jcontains ents0 "vision") then jinsert ents0 "vision" (Json.bool true)
    else ents0
  let ents2 :=
    if !(jcontains ents1 "monthly_cap") then jinsert ents1 "monthly_cap" (Json.posInt 1000)
    else ents1
  { valid := valid
    entitlements := ents2
    expires_at := none
    meta :=
      match detail with
      | some dtl => [("code", Json.str code), ("detail", Json.str dtl)]
      | none => [("code", Json.str code)] }

/-- TextBlock (vision.rs): OCR text with optional confidence (f32 as Rat). -/
structure TextBlock where
  text : String
  confidence : Option Rat
deriving DecidableEq

/-- Region (vision.rs). -/
structure Region where
  name : String
  description : String
deriving DecidableEq

/-- UIElement (vision.rs). -/
structure UIElement where
  name : String
  element_type : String
deriving DecidableEq

/-- Layout (vision.rs). -/
structure Layout where
  theme : Option String
  regions : List Region
  key_ui_elements : List UIElement
deriving DecidableEq

/-- Contrast (vision.rs). -/
structure Contrast where
  ratio : Option Rat
  compliant : Option Bool
  issues : List String
deriving DecidableEq

/-- Visual (vision.rs). -/
structure Visual where
  background : Option String
  accent_colors : List String
  contrast : Option Contrast
  description : Option String
deriving DecidableEq

/-- Interaction (vision.rs). -/
structure Interaction where
  description : Option String
deriving DecidableEq

/-- Rect (vision.rs), f32 coordinates as Rat. -/
structure Rect where
  x : Rat
  y : Rat
  width : Rat
  height : Rat
deriving DecidableEq

/-- DomElement (vision.rs); the Rust field `class` is a Lean keyword, kept
via identifier quoting. -/
structure DomElement where
  tag : String
  id : Option String
  «class» : Option String
  text : Option String
  position : Rect
  attributes : List (String × String)
deriving DecidableEq

/-- Meta (vision.rs). -/
structure Meta where
  model : String
  backend : String
  duration_ms : Nat
  parse_warnings : Option (List String)
deriving DecidableEq

/-- VisionResponse (vision.rs). -/
structure VisionResponse where
  image_path : Option String
  url : Option String
  mode : String
  text_blocks : List TextBlock
  layout : Layout
  visual : Visual
  interaction : Interaction
  dom_map : Option (List DomElement)
  meta : Meta
  raw_model_output : Option String
deriving DecidableEq

/-- VisionRequest (vision.rs). -/
structure VisionRequest where
  image_base64 : Option String
  url : Option String
  mode : String
  model : Option String
  timeout_ms : Option Nat
  raw : Option Bool
  license : Option String
deriving DecidableEq

/-- The text_blocks element decoder of parse_structured_output (vision.rs
lines 482-492): requires a string `text`, keeps an optional numeric
`confidence`. -/
def decodeTextBlock (item : Json) : Option TextBlock :=
  match (item.jget "text").bind Json.as_str with
  | none => none
  | some s =>
      some { text := s, confidence := (item.jget "confidence").bind Json.as_f64 }

/-- The regions element decoder (vision.rs lines 507-514). -/
def decodeRegion (item : Json) : Option Region :=
  match (item.jget "name").bind Json.as_str with
  | none => none
  | some n =>
      match (item.jget "description").bind Json.as_str with
      | none => none
      | some d => some { name := n, description := d }

/-- The key_ui_elements element decoder (vision.rs lines 521-528). -/
def decodeUIElement (item : Json) : Option UIElement :=
  match (item.jget "name").bind Json.as_str with
  | none => none
  | some n =>
      match (item.jget "element_type").bind Json.as_str with
      | none => none
      | some t => some { name := n, element_type := t }

/-- The position decoder inside the dom_map element decoder (vision.rs lines
612-619): all four coordinates must be present and numeric. -/
def decodeRect (p : Json) : Option Rect :=
  match (p.jget "x").bind Json.as_f64 with
  | none => none
  | some x =>
      match (p.jget "y").bind Json.as_f64 with
      | none => none
      | some y =>
          match (p.jget "width").bind Json.as_f64 with
          | none => none
          | some width =>
              match (p.jget "height").bind Json.as_f64 with
              | none => none
              | some height => some { x := x, y := y, width := width, height := height }

/-- The dom_map element decoder (vision.rs lines 597-630): requires a string
tag and a decodable position rectangle; id/class/text/attributes are
optional and defaulted. -/
def decodeDomElement (item : Json) : Option DomElement :=
  match (item.jget "tag").bind Json.as_str with
  | none => none
  | some tag =>
      match (item.jget "position").bind decodeRect with
      | none => none
      | some position =>
          some
            { tag := tag
              id := (item.jget "id").bind Json.as_str
              «class» := (item.jget "class").bind Json.as_str
              text := (item.jget "text").bind Json.as_str
              position := position
              attributes :=
                (((item.jget "attributes").bind Json.as_object).map
                  (fun fields =>
                    fields.filterMap
                      (fun kv => (Json.as_str kv.2).map (fun s => (kv.1, s))))).getD [] }

/-- The layout decoder of parse_structured_output (vision.rs lines 497-538). -/
def decodeLayout (parsed : Json) : Layout :=
  match parsed.jget "layout" with
  | some layout_obj =>
      { theme := (layout_obj.jget "theme").bind Json.as_str
        regions :=
          (((layout_obj.jget "regions").bind Json.as_array).map
            (fun arr => arr.filterMap decodeRegion)).getD []
        key_ui_elements :=
          (((layout_obj.jget "key_ui_elements").bind Json.as_array).map
            (fun arr => arr.filterMap decodeUIElement)).getD [] }
  | none => { theme := none, regions := [], key_ui_elements := [] }

/-- The visual decoder of parse_structured_output (vision.rs lines 541-583). -/
def decodeVisual (parsed : Json) : Visual :=
  match parsed.jget "visual" with
  | some visual_obj =>
      { background := (visual_obj.jget "background").bind Json.as_str
        accent_colors :=
          (((visual_obj.jget "accent_colors").bind Json.as_array).map
            (fun arr => arr.filterMap Json.as_str)).getD []
        contrast :=
          (visual_obj.jget "contrast").map
            (fun c =>
              { ratio := (c.jget "ratio").bind Json.as_f64
                compliant := (c.jget "compliant").bind Json.as_bool
                issues :=
                  (((c.jget "issues").bind Json.as_array).map
                    (fun arr => arr.filterMap Json.as_str)).getD [] })
        description := (visual_obj.jget "description").bind Json.as_str }
  | none => { background := none, accent_colors := [], contrast := none, description := none }

/-- parse_structured_output (vision.rs lines 470-651): field-by-field
defensive decode of a parsed JSON value; always succeeds. -/
def parse_structured_output (parsed : Json) (req : VisionRequest) (model_name : String)
    (duration_ms : Nat) (raw_output : String) : VisionResponse :=
  { image_path := none
    url := req.url
    mode := req.mode
    text_blocks :=
      (((parsed.jget "text_blocks").bind Json.as_array).map
        (fun arr => arr.filterMap decodeTextBlock)).getD []
    layout := decodeLayout parsed
    visual := decodeVisual parsed
    interaction :=
      { description :=
          (((parsed.jget "interaction").bind (fun i => i.jget "description")).bind
            Json.as_str) }
    dom_map :=
      ((parsed.jget "dom_map").bind Json.as_array).map
        (fun arr => arr.filterMap decodeDomElement)
    meta :=
      { model := model_name
        backend := "llama.cpp"
        duration_ms := duration_ms
        parse_warnings := none }
    raw_model_output := some raw_output }

/-- The tier-3 fallback response of parse_vision_output (vision.rs lines
437-465). -/
def fallback_response (raw_output : String) (req : VisionRequest) (model_name : String)
    (duration_ms : Nat) : VisionResponse :=
  { image_path := none
    url := req.url
    mode := req.mode
    text_blocks := [{ text := raw_output.trim, confidence := some (1 / 2) }]
    layout := { theme := none, regions := [], key_ui_elements := [] }
    visual :=
      { background := none
        accent_colors := []
        contrast := none
        description := some "Analysis completed" }
    interaction := { description := none }
    dom_map := none
    meta :=
      { model := model_name
        backend := "llama.cpp"
        duration_ms := duration_ms
        parse_warnings := some ["Could not parse structured output"] }
    raw_model_output := some raw_output }

/-- Index of the first occurrence of a character (str::find). -/
def findIdxAux (c : Char) : List Char → Option Nat
  | [] => none
  | x :: xs => if x = c then some 0 else (findIdxAux c xs).map (· + 1)

/-- str::find on the character-sequence model of strings. -/
def strFind (s : String) (c : Char) : Option Nat :=
  findIdxAux c s.toList

/-- str::rfind on the character-sequence model of strings. -/
def strRFind (s : String) (c : Char) : Option Nat :=
  (findIdxAux c s.toList.reverse).map (fun i => s.toList.length - 1 - i)

/-- Rust inclusive slicing &s[a..=b] (= &s[a..b+1]); none models the
out-of-bounds panic raised when a > b + 1 or b + 1 > s.len(). -/
def rustSliceInc (s : String) (a b : Nat) : Option String :=
  if a ≤ b + 1 ∧ b + 1 ≤ s.toList.length then
    some (String.mk ((s.toList.drop a).take (b + 1 - a)))
  else none

/-- parse_vision_output (vision.rs lines 415-466), parametrized by the
external JSON text parser `pj` (serde_json::from_str). Tier 1 parses the
whole text, tier 2 the substring from the first brace-open to the last
brace-close, tier 3 builds the fallback response. The Rust function returns
Result but every exit is Ok; `none` here models the slice-bounds panic on
tier 2 when the first brace-open lies after the last brace-close. -/
def parse_vision_output (pj : String → Option Json) (raw_output : String)
    (req : VisionRequest) (model_name : String) (duration_ms : Nat) :
    Option VisionResponse :=
  match pj raw_output with
  | some parsed => some (parse_structured_output parsed req model_name duration_ms raw_output)
  | none =>
      match strFind raw_output '\x7b' with
      | some json_start =>
          match strRFind raw_output '\x7d' with
          | some json_end =>
              match rustSliceInc raw_output json_start json_end with
              | none => none
              | some json_str =>
                  match pj json_str with
                  | some parsed =>
                      some (parse_structured_output parsed req model_name duration_ms raw_output)
                  | none => some (fallback_response raw_output req model_name duration_ms)
          | none => some (fallback_response raw_output req model_name duration_ms)
      | none => some (fallback_response raw_output req model_name duration_ms)

/-- PreprocessConfig (vision.rs). -/
structure PreprocessConfig where
  max_long_edge : Nat
  max_pixels : Nat
  jpeg_quality : Nat
deriving DecidableEq

/-- PreprocessedImage (vision.rs); the encoded JPEG bytes are abstracted
away, `resized` records whether the resize branch ran. -/
structure PreprocessedImage where
  width : Nat
  height : Nat
  resized : Bool
deriving DecidableEq

/-- f32::round for nonnegative values (round half away from zero). -/
def ratRound (q : Rat) : Int :=
  Int.floor (q + 1 / 2)

/-- The long-edge clamp of preprocess_image (vision.rs lines 334-346): if the
longer dimension exceeds the cap, it becomes the cap and the shorter becomes
round(short * cap / long) floored at 1. Exact rational arithmetic stands in
for the source's f32 arithmetic. -/
def clampLongEdge (w h : Nat) (cfg : PreprocessConfig) : Nat × Nat :=
  if max w h > cfg.max_long_edge then
    if w ≥ h then
      (cfg.max_long_edge,
        (max (ratRound ((h : Rat) * (cfg.max_long_edge : Rat) / (w : Rat))) 1).toNat)
    else
      ((max (ratRound ((w : Rat) * (cfg.max_long_edge : Rat) / (h : Rat))) 1).toNat,
        cfg.max_long_edge)
  else (w, h)

/-- The pixel-budget clamp of preprocess_image (vision.rs lines 349-355): if
the pixel count exceeds the budget, each dimension becomes
floor(dim * sqrt(max_pixels / pixels)) floored at 1. The source computes
with f64; here the exact value floor(d * sqrt(m / p)) is encoded as
Nat.sqrt (d * d * m / p), an identity proved below
(natFloor_mul_sqrt_div). -/
def clampPixels (tw th maxp : Nat) : Nat × Nat :=
  let target_pixels := tw * th
  if target_pixels > maxp then
    (max (Nat.sqrt (tw * tw * maxp / target_pixels)) 1,
      max (Nat.sqrt (th * th * maxp / target_pixels)) 1)
  else (tw, th)

/-- preprocess_image (vision.rs lines 322-383), with the external image
decoder as a parameter and the JPEG re-encoding abstracted away (it does not
affect dimensions): long-edge clamp, pixel-budget clamp, conditional resize,
and the final oversize guard. -/
def preprocess_image (decode : List Nat → Option (Nat × Nat)) (data : List Nat)
    (cfg : PreprocessConfig) : Except String PreprocessedImage :=
  match decode data with
  | none => .error "image decode failed"
  | some wh =>
      let s1 := clampLongEdge wh.1 wh.2 cfg
      let s2 := clampPixels s1.1 s1.2 cfg.max_pixels
      let resized := decide ((s2.1, s2.2) ≠ (wh.1, wh.2))
      if s2.1 * s2.2 > cfg.max_pixels then
        .error "image too large after resize"
      else
        .ok { width := s2.1, height := s2.2, resized := resized }

/-- The JSON shape hint shown for ocr mode. -/
def ocrHint : String :=
  "\x7b\"text_blocks\": [\x7b\"text\": \"extracted text here\", \"confidence\": 0.95\x7d]\x7d"

/-- The ocr-mode task string of prepare_vision_prompt (vision.rs line 395). -/
def ocrTask : String :=
  "Extract all visible text from the image. Return JSON: " ++ ocrHint

/-- The JSON shape hint shown for layout mode. -/
def layoutHint : String :=
  "\x7b\"layout\": \x7b\"regions\": [\x7b\"name\": \"region_name\", \"description\": \"description\"\x7d], \"key_ui_elements\": [\x7b\"name\": \"element_name\", \"element_type\": \"type\"\x7d]\x7d\x7d"

/-- The layout-mode task string (vision.rs line 396). -/
def layoutTask : String :=
  "Analyze the layout and structure. Return JSON: " ++ layoutHint

/-- The brief-mode task string (vision.rs line 397). -/
def briefTask : String :=
  "Provide a brief visual description. Return JSON: \x7b\"visual\": \x7b\"description\": \"brief description of what you see\"\x7d\x7d"

/-- The JSON shape hint shown for web mode. -/
def webHint : String :=
  "\x7b\"dom_map\": [\x7b\"tag\": \"div\", \"text\": \"content\"\x7d], \"interaction\": \x7b\"description\": \"interactive elements\"\x7d\x7d"

/-- The web-mode task string (vision.rs line 398). -/
def webTask : String :=
  "Analyze as web page screenshot. Return JSON: " ++ webHint

/-- The full-mode (and catch-all) task string (vision.rs line 399). -/
def fullTask : String :=
  "Perform comprehensive analysis. Return JSON with ALL fields: \x7b\"text_blocks\": [...], \"layout\": \x7b\"regions\": [...], \"key_ui_elements\": [...]\x7d, \"visual\": \x7b\"description\": \"...\"\x7d, \"interaction\": \x7b\"description\": \"...\"\x7d\x7d"

/-- Boolean substring test used for the model-family check (str::contains). -/
def hasSubstr (pat : List Char) : List Char → Bool
  | [] => pat.isEmpty
  | c :: rest => pat.isPrefixOf (c :: rest) || hasSubstr pat rest

/-- str::contains on strings. -/
def strContains (s pat : String) : Bool :=
  hasSubstr pat.toList s.toList

/-- The dimension-bearing preamble of prepare_vision_prompt (vision.rs
lines 388-392), hoisted from the function body. -/
def base_instruction (width height : Nat) : String :=
  "You are an AI vision assistant. Analyze the provided image (dimensions: " ++
    toString width ++ "x" ++ toString height ++
    " pixels) and respond ONLY with a valid JSON object. Do not include any explanatory text before or after the JSON.\n\n"

/-- The mode-selected task of prepare_vision_prompt (vision.rs lines
394-400), hoisted from the function body; the source's match treats "full"
and every unrecognized mode alike. -/
def analysis_task (mode : String) : String :=
  if mode = "ocr" then ocrTask
  else if mode = "layout" then layoutTask
  else if mode = "brief" then briefTask
  else if mode = "web" then webTask
  else fullTask

/-- prepare_vision_prompt (vision.rs lines 387-411): dimension-bearing
preamble, mode-selected task, then a model-family chat template chosen by a
case-insensitive "llava" substring test on the model name. -/
def prepare_vision_prompt (mode : String) (width height : Nat) (model_name : String) :
    String :=
  if strContains model_name.toLower "llava" then
    "<s>[INST] " ++ base_instruction width height ++ analysis_task mode ++ " [/INST]"
  else
    "<|im_start|>user\n" ++ base_instruction width height ++ analysis_task mode ++
      "<|im_end|>\n<|im_start|>assistant\n"

/-- Outcome of the bounded inference call (vision.rs lines 287-293): model
output, generation failure, or the 10 s timeout. -/
inductive GenOutcome where
  | ok : String → GenOutcome
  | failed : String → GenOutcome
  | timedOut : GenOutcome

/-- Request-level error of process_vision_request: a license error
propagated from the gate, or a textual error (the source uses
Box<dyn Error> strings for the rest). -/
inductive PipelineError where
  | license : VisionLicenseError → PipelineError
  | msg : String → PipelineError
deriving DecidableEq

/-- Environment of process_vision_request: the dev-mode toggle, the license
environment, and the external collaborators (base64 decoding, URL fetch,
image decoding, the Ollama availability oracle, the model registry, the
engine load, the bounded generation call, the JSON text parser, and the
measured elapsed time). -/
structure VisionEnv where
  dev_mode : Bool
  lic : LicenseEnv
  decode_base64 : String → Except String (List Nat)
  fetch_url : String → Except String (List Nat)
  decode_image : List Nat → Option (Nat × Nat)
  ollama_has : String → Bool
  registry_has : String → Bool
  load_result : Except String Unit
  generate : String → GenOutcome
  json_dec : String → Option Json
  elapsed_ms : Nat

/-- process_vision_request (vision.rs lines 170-309): license gate, usage
metering, image-source selection, preprocessing, model availability and
loading, prompt construction, bounded inference, and output parsing. The
outer Option models a panic (reachable only through parse_vision_output's
slice). The Ollama help text is carried verbatim from the source. -/
def process_vision_request (env : VisionEnv) (req : VisionRequest) (model_name : String)
    (st : LicenseState) : Option (Except PipelineError VisionResponse × LicenseState) :=
  let gate :=
    if env.dev_mode then (Except.ok (), st)
    else
      match check_vision_access env.dev_mode env.lic st req.license with
      | (.error e, st1, _) => (.error e, st1)
      | (.ok _, st1, _) => (.ok (), st1)
  match gate with
  | (.error e, st1) => some (.error (.license e), st1)
  | (.ok _, st1) =>
      let metering :=
        if env.dev_mode then (Except.ok (), st1)
        else record_usage env.lic st1
      match metering with
      | (.error e, st2) => some (.error (.msg e), st2)
      | (.ok _, st2) =>
          let raw_image_data :=
            match req.image_base64 with
            | some b64 =>
                (env.decode_base64 b64).mapError
                  (fun e => "Failed to decode base64 image: " ++ e)
            | none =>
                match req.url with
                | some u => env.fetch_url u
                | none => .error "Either image_base64 or url must be provided"
          match raw_image_data with
          | .error e => some (.error (.msg e), st2)
          | .ok data =>
              let preprocess_cfg : PreprocessConfig :=
                { max_long_edge := 640, max_pixels := 1500000, jpeg_quality := 80 }
              match (preprocess_image env.decode_image data preprocess_cfg).mapError
                  (fun e => "Failed to preprocess image: " ++ e) with
              | .error e => some (.error (.msg e), st2)
              | .ok preprocessed =>
                  let vision_model := model_name
                  let registry_model_name := vision_model.replace ":" "/"
                  if !(env.ollama_has vision_model) then
                    some (.error (.msg ("Vision model '" ++ vision_model ++
                      "' is not available in Ollama.\n\nTo download the default MiniCPM-V model, run:\n\tollama pull registry.ollama.ai/library/minicpm-v:latest\n\nOr specify a different model with --model flag or SHIMMY_VISION_MODEL environment variable.\n\nAvailable vision models you can try:\n\t• minicpm-v:latest (recommended default)\n\t• llava:latest\n\t• llava-phi3:latest\n\t• moondream:latest\n\t• llama3.2-vision:latest")), st2)
                  else if !(env.registry_has registry_model_name) then
                    some (.error (.msg ("Vision model '" ++ registry_model_name ++
                      "' not found in registry. This may be a configuration issue.")), st2)
                  else
                    match env.load_result with
                    | .error e =>
                        some (.error (.msg ("Failed to load vision model: " ++ e)), st2)
                    | .ok _ =>
                        let prompt :=
                          prepare_vision_prompt req.mode preprocessed.width
                            preprocessed.height vision_model
                        match env.generate prompt with
                        | .timedOut =>
                            some (.error (.msg "Vision inference timed out after 10 seconds"),
                              st2)
                        | .failed e =>
                            some (.error (.msg ("Vision inference failed: " ++ e)), st2)
                        | .ok raw_output =>
                            match parse_vision_output env.json_dec raw_output req model_name
                                env.elapsed_ms with
                            | none => none
                            | some resp => some (.ok resp, st2)

lemma findIdxAux_lt_length {c : Char} :
    ∀ {l : List Char} {i : Nat}, findIdxAux c l = some i → i < l.length := by
  intro l
  induction l with
  | nil => intro i h; simp [findIdxAux] at h
  | cons x xs ih =>
      intro i h
      by_cases hx : x = c
      · simp [findIdxAux, hx] at h
        simp only [List.length_cons]
        omega
      · simp [findIdxAux, hx] at h
        rcases h with ⟨j, hj, hji⟩
        have := ih hj
        simp only [List.length_cons]
        omega

lemma strRFind_lt_length {s : String} {c : Char} {b : Nat}
    (h : strRFind s c = some b) : b < s.toList.length := by
  unfold strRFind at h
  rcases Option.map_eq_some'.mp h with ⟨i, hi, hb⟩
  have hlen := findIdxAux_lt_length hi
  rw [List.length_reverse] at hlen
  omega

lemma validateRemote_called (env : LicenseEnv) (st : LicenseState) (key : String) :
    (validate_license.validateRemote env st key).remote_called = true := by
  unfold validate_license.validateRemote
  split
  · rfl
  · split <;> rfl

lemma validateRemote_usage (env : LicenseEnv) (st : LicenseState) (key : String) :
    (validate_license.validateRemote env st key).state.usage = st.usage ∧
      (validate_license.validateRemote env st key).state.usage_disk = st.usage_disk := by
  unfold validate_license.validateRemote
  split
  · exact ⟨rfl, rfl⟩
  · split <;> exact ⟨rfl, rfl⟩

lemma validate_license_usage (env : LicenseEnv) (st : LicenseState) (key : String) :
    (validate_license env st key).state.usage = st.usage ∧
      (validate_license env st key).state.usage_disk = st.usage_disk := by
  unfold validate_license
  split
  · split
    · exact ⟨rfl, rfl⟩
    · exact validateRemote_usage env st key
  · exact validateRemote_usage env st key

lemma check_vision_access_usage (dev : Bool) (env : LicenseEnv) (st : LicenseState)
    (k : Option String) :
    (check_vision_access dev env st k).2.1.usage = st.usage ∧
      (check_vision_access dev env st k).2.1.usage_disk = st.usage_disk := by
  unfold check_vision_access
  split
  · exact ⟨rfl, rfl⟩
  · match k with
    | none => exact ⟨rfl, rfl⟩
    | some key =>
        have h := validate_license_usage env st key
        dsimp only
        split <;> try exact h
        · split
          · exact h
          · split
            · exact h
            · split
              · exact h
              · split
                · split
                  · split
                    · exact h
                    · exact h
                  · exact h
                · exact h

/-- Claim C10: the remote-authority mapping always produces a verdict with no
expiry; a cache entry written after a remote validation therefore has no
computed expiry, and for such entries freshness is exactly
now - cached_at < 24h (for the matching key). -/
theorem keygen_no_expiry_fresh_window :
    (∀ (valid : Bool) (code : String) (detail : Option String) (data : Option Json),
        (call_keygen_map valid code detail data).expires_at = none)
  ∧ (∀ (env : LicenseEnv) (st : LicenseState) (key : String)
        (valid : Bool) (code : String) (detail : Option String) (data : Option Json),
        env.remote key = .ok (call_keygen_map valid code detail data) →
        env.disk_write_ok = true →
        (∀ c0, st.mem = some c0 → cacheFresh env.now key c0 = false) →
        ∃ cc, (validate_license env st key).state.mem = some cc
          ∧ (validate_license env st key).state.disk = some cc
          ∧ cc.expires_at = none ∧ cc.cached_at = env.now ∧ cc.key = key)
  ∧ (∀ (now : Int) (key : String) (c : CachedLicense), c.expires_at = none →
        (cacheFresh now key c = true ↔ (c.key = key ∧ now - c.cached_at < 86400))) := by
  refine ⟨?_, ?_, ?_⟩
  · intro valid code detail data
    cases detail <;> rfl
  · intro env st key valid code detail data hremote hdwo hmiss
    have hrem : (validate_license env st key) = validate_license.validateRemote env st key := by
      unfold validate_license
      split
      · rename_i c0 hc0
        rw [if_neg]
        simp [hmiss c0 hc0]
      · rfl
    rw [hrem]
    unfold validate_license.validateRemote
    rw [hremote]
    simp only [hdwo, if_true]
    refine ⟨_, rfl, rfl, ?_, rfl, rfl⟩
    have : (call_keygen_map valid code detail data).expires_at = none := by
      cases detail <;> rfl
    simp [this]
  · intro now key c hexp
    simp [cacheFresh, hexp]

/-- Witness for keygen_no_expiry_fresh_window at a concrete environment with
an empty cache and a remote verdict produced by the Keygen mapping. -/
theorem keygen_no_expiry_fresh_window_witness :
    ∃ cc,
      (validate_license
          { now := 0
            remote := fun _ => .ok (call_keygen_map true "VALID" none none)
            disk_write_ok := true
            usage_write_ok := true
            parse_rfc3339 := fun _ => none }
          { mem := none, disk := none
            usage := { requests_today := 0, requests_this_month := 0, last_reset := 0 }
            usage_disk := none }
          "k").state.mem = some cc
      ∧ (validate_license
          { now := 0
            remote := fun _ => .ok (call_keygen_map true "VALID" none none)
            disk_write_ok := true
            usage_write_ok := true
            parse_rfc3339 := fun _ => none }
          { mem := none, disk := none
            usage := { requests_today := 0, requests_this_month := 0, last_reset := 0 }
            usage_disk := none }
          "k").state.disk = some cc
      ∧ cc.expires_at = none ∧ cc.cached_at = 0 ∧ cc.key = "k" :=
  keygen_no_expiry_fresh_window.2.1 _ _ "k" true "VALID" none none rfl rfl
    (fun c0 h => by simp at h)

/-- Claim C2: validate_license reuses a fresh same-key cached verdict
without calling the remote authority; otherwise the remote authority is
called and, on success, the cache is replaced wholesale in memory and on
disk with the new verdict. A no-expiry verdict cached 23 hours ago is
reused; one cached 25 hours ago triggers a remote call. -/
theorem validate_license_cache_freshness :
    (∀ (env : LicenseEnv) (st : LicenseState) (key : String) (c : CachedLicense),
        st.mem = some c → cacheFresh env.now key c = true →
        validate_license env st key =
          { result := .ok c.validation, state := st, remote_called := false })
  ∧ (∀ (env : LicenseEnv) (st : LicenseState) (key : String),
        (∀ c, st.mem = some c → cacheFresh env.now key c = false) →
        (validate_license env st key).remote_called = true
        ∧ ∀ v, env.remote key = .ok v → env.disk_write_ok = true →
            validate_license env st key =
              { result := .ok v
                state :=
                  { st with
                    mem := some { key := key, validation := v, cached_at := env.now,
                                  expires_at := v.expires_at.bind env.parse_rfc3339 }
                    disk := some { key := key, validation := v, cached_at := env.now,
                                   expires_at := v.expires_at.bind env.parse_rfc3339 } }
                remote_called := true })
  ∧ (∀ (env : LicenseEnv) (st : LicenseState) (key : String) (c : CachedLicense),
        st.mem = some c → c.key = key → c.expires_at = none →
        env.now - c.cached_at = 82800 →
        validate_license env st key =
          { result := .ok c.validation, state := st, remote_called := false })
  ∧ (∀ (env : LicenseEnv) (st : LicenseState) (key : String) (c : CachedLicense),
        st.mem = some c → c.expires_at = none →
        env.now - c.cached_at = 90000 →
        (validate_license env st key).remote_called = true) := by
  refine ⟨?_, ?_, ?_, ?_⟩
  · intro env st key c hmem hfresh
    unfold validate_license
    rw [hmem]
    simp [hfresh]
  · intro env st key hmiss
    have hrem : (validate_license env st key) = validate_license.validateRemote env st key := by
      unfold validate_license
      split
      · rename_i c0 hc0
        rw [if_neg]
        simp [hmiss c0 hc0]
      · rfl
    constructor
    · rw [hrem]; exact validateRemote_called env st key
    · intro v hv hdwo
      rw [hrem]
      unfold validate_license.validateRemote
      rw [hv]
      simp [hdwo]
  · intro env st key c hmem hk hexp harith
    unfold validate_license
    rw [hmem]
    have hfresh : cacheFresh env.now key c = true := by
      simp [cacheFresh, hexp, hk, harith]
    simp [hfresh]
  · intro env st key c hmem hexp harith
    unfold validate_license
    rw [hmem]
    have hfresh : cacheFresh env.now key c = false := by
      simp [cacheFresh, hexp, harith]
    simp [hfresh]
    exact validateRemote_called env st key

/-- Witness for validate_license_cache_freshness: a verdict cached 23 hours
ago (no expiry) is reused without a remote call. -/
theorem validate_license_cache_freshness_witness :
    validate_license
      { now := 82800
        remote := fun _ => .error "remote must not be called"
        disk_write_ok := true
        usage_write_ok := true
        parse_rfc3339 := fun _ => none }
      { mem := some
          { key := "k"
            validation := { valid := true, entitlements := [], expires_at := none, meta := [] }
            cached_at := 0
            expires_at := none }
        disk := none
        usage := { requests_today := 0, requests_this_month := 0, last_reset := 0 }
        usage_disk := none }
      "k" =
      { result := .ok { valid := true, entitlements := [], expires_at := none, meta := [] }
        state :=
          { mem := some
              { key := "k"
                validation :=
                  { valid := true, entitlements := [], expires_at := none, meta := [] }
                cached_at := 0
                expires_at := none }
            disk := none
            usage := { requests_today := 0, requests_this_month := 0, last_reset := 0 }
            usage_disk := none }
        remote_called := false } :=
  validate_license_cache_freshness.1 _ _ "k" _ rfl (by decide)

/-- Claim C1 (counterexample): with a valid vision-enabled verdict whose
monthly_cap is 2^32 and a usage counter of 0 the gate reports
UsageLimitExceeded, although the cap (as a number) is strictly greater than
the counter: the source casts the u64 cap to u32, truncating 2^32 to 0. -/
theorem check_vision_access_cap_truncation_cx :
    check_vision_access false
      { now := 0, remote := fun _ => .error "unused", disk_write_ok := true,
        usage_write_ok := true, parse_rfc3339 := fun _ => none }
      { mem := some
          { key := "k"
            validation :=
              { valid := true
                entitlements :=
                  [("vision", Json.bool true), ("monthly_cap", Json.posInt 4294967296)]
                expires_at := none
                meta := [] }
            cached_at := 0
            expires_at := none }
        disk := none
        usage := { requests_today := 0, requests_this_month := 0, last_reset := 0 }
        usage_disk := none }
      (some "k") =
      (.error .UsageLimitExceeded,
        { mem := some
            { key := "k"
              validation :=
                { valid := true
                  entitlements :=
                    [("vision", Json.bool true), ("monthly_cap", Json.posInt 4294967296)]
                  expires_at := none
                  meta := [] }
              cached_at := 0
              expires_at := none }
          disk := none
          usage := { requests_today := 0, requests_this_month := 0, last_reset := 0 }
          usage_disk := none },
        false)
    ∧ ¬(4294967296 ≤ (0 : Nat)) :=
  ⟨rfl, by decide⟩

/-- Claim C1 (amended): outside dev mode, a missing key yields
MissingLicense; a validate_license failure yields ValidationFailed with its
detail; an invalid verdict yields InvalidLicense; a valid verdict whose
vision entitlement is absent or not the boolean true yields
FeatureNotEnabled; a valid vision-enabled verdict whose monthly_cap is a
u64-representable number whose value truncated to 32 bits (the source casts
it to u32) is ≤ the monthly counter yields UsageLimitExceeded; otherwise
the check succeeds. -/
theorem check_vision_access_error_mapping (env : LicenseEnv) (st : LicenseState) :
    (check_vision_access false env st none = (.error .MissingLicense, st, false))
  ∧ (∀ key e, (validate_license env st key).result = .error e →
      (check_vision_access false env st (some key)).1 = .error (.ValidationFailed e))
  ∧ (∀ key v, (validate_license env st key).result = .ok v → v.valid = false →
      (check_vision_access false env st (some key)).1 = .error .InvalidLicense)
  ∧ (∀ key v, (validate_license env st key).result = .ok v → v.valid = true →
      (jlookup v.entitlements "vision" = none ∨
        ∃ jv, jlookup v.entitlements "vision" = some jv ∧ jv.as_bool.getD false = false) →
      (check_vision_access false env st (some key)).1 = .error .FeatureNotEnabled)
  ∧ (∀ key v jv cap, (validate_license env st key).result = .ok v → v.valid = true →
      jlookup v.entitlements "vision" = some jv → jv.as_bool.getD false = true →
      (jlookup v.entitlements "monthly_cap").bind Json.as_u64 = some cap →
      cap % 2 ^ 32 ≤ st.usage.requests_this_month →
      (check_vision_access false env st (some key)).1 = .error .UsageLimitExceeded)
  ∧ (∀ key v jv, (validate_license env st key).result = .ok v → v.valid = true →
      jlookup v.entitlements "vision" = some jv → jv.as_bool.getD false = true →
      ((jlookup v.entitlements "monthly_cap").bind Json.as_u64 = none ∨
        ∃ cap, (jlookup v.entitlements "monthly_cap").bind Json.as_u64 = some cap ∧
          st.usage.requests_this_month < cap % 2 ^ 32) →
      (check_vision_access false env st (some key)).1 = .ok ()) := by
  have husage : ∀ key, (validate_license env st key).state.usage = st.usage :=
    fun key => (validate_license_usage env st key).1
  refine ⟨rfl, ?_, ?_, ?_, ?_, ?_⟩
  · intro key e hres
    simp only [check_vision_access, Bool.false_eq_true, if_false]
    rw [hres]
  · intro key v hres hvalid
    simp only [check_vision_access, Bool.false_eq_true, if_false]
    rw [hres]
    simp [hvalid]
  · intro key v hres hvalid hvision
    simp only [check_vision_access, Bool.false_eq_true, if_false]
    rw [hres]
    simp only [hvalid, Bool.not_true, Bool.false_eq_true, if_false]
    rcases hvision with hnone | ⟨jv, hjv, hfalse⟩
    · rw [hnone]
    · rw [hjv]
      simp [hfalse]
  · intro key v jv cap hres hvalid hjv htrue hcap hle
    simp only [check_vision_access, Bool.false_eq_true, if_false]
    rw [hres]
    simp only [hvalid, Bool.not_true, Bool.false_eq_true, if_false]
    rw [hjv]
    simp only [htrue, Bool.not_true, Bool.false_eq_true, if_false]
    rcases hmc : jlookup v.entitlements "monthly_cap" with _ | mc
    · rw [hmc] at hcap; simp at hcap
    · rw [hmc] at hcap
      simp only [Option.some_bind] at hcap
      have hge : st.usage.requests_this_month ≥ cap % 2 ^ 32 := hle
      simp [hcap, husage key, hge]
      rw [if_pos (show cap % 4294967296 ≤ st.usage.requests_this_month by simpa using hge)]
  · intro key v jv hres hvalid hjv htrue hcap
    simp only [check_vision_access, Bool.false_eq_true, if_false]
    rw [hres]
    simp only [hvalid, Bool.not_true, Bool.false_eq_true, if_false]
    rw [hjv]
    simp only [htrue, Bool.not_true, Bool.false_eq_true, if_false]
    rcases hmc : jlookup v.entitlements "monthly_cap" with _ | mc
    · rfl
    · rw [hmc] at hcap
      simp only [Option.some_bind] at hcap
      rcases hcap with hnone | ⟨cap, hcapv, hlt⟩
      · simp [hnone]
      · have hnge : ¬(st.usage.requests_this_month ≥ cap % 2 ^ 32) := by omega
        simp [hcapv, husage key, hnge]
        rw [if_neg (show ¬(cap % 4294967296 ≤ st.usage.requests_this_month) by simpa using hnge)]

/-- Witness for check_vision_access_error_mapping: a fresh valid verdict
with vision enabled and a monthly cap of 1000 against a counter of 3
passes the gate. -/
theorem check_vision_access_error_mapping_witness :
    (check_vision_access false
      { now := 0, remote := fun _ => .error "unused", disk_write_ok := true,
        usage_write_ok := true, parse_rfc3339 := fun _ => none }
      { mem := some
          { key := "k"
            validation :=
              { valid := true
                entitlements :=
                  [("vision", Json.bool true), ("monthly_cap", Json.posInt 1000)]
                expires_at := none
                meta := [] }
            cached_at := 0
            expires_at := none }
        disk := none
        usage := { requests_today := 3, requests_this_month := 3, last_reset := 0 }
        usage_disk := none }
      (some "k")).1 = .ok () :=
  (check_vision_access_error_mapping _ _).2.2.2.2.2 "k"
    { valid := true
      entitlements := [("vision", Json.bool true), ("monthly_cap", Json.posInt 1000)]
      expires_at := none
      meta := [] }
    (Json.bool true) rfl rfl rfl rfl (Or.inr ⟨1000, rfl, by decide⟩)

/-- Claim C3 (code bug): on the raw model text composed of a closing brace,
a space and an opening brace — which serde_json rejects, so the parser
parameter returns none on every string — the source's tier-2 extraction
computes find = 2 and rfind = 0 and evaluates the slice raw[2..=0], an
out-of-order range that panics instead of producing the tier-3 fallback
response. -/
theorem parse_vision_output_brace_order_panic :
    parse_vision_output (fun _ => none) "\x7d \x7b"
      { image_base64 := none, url := none, mode := "full", model := none,
        timeout_ms := none, raw := none, license := none }
      "m" 0 = none := rfl

/-- Claim C4: if the whole raw text parses as JSON it is decoded by
parse_structured_output with parse_warnings none (tier 1); otherwise, when
the text has a first brace-open before its last brace-close, the enclosed
substring is sliced and, when it parses, decoded the same way (tier 2); on
the documented example the result is exactly one text block "hi" with
confidence 0.9 (9/10 under the rational model of floats). -/
theorem parse_vision_output_tiers :
    (∀ (pj : String → Option Json) (raw : String) (req : VisionRequest)
        (m : String) (d : Nat) (parsed : Json),
        pj raw = some parsed →
        parse_vision_output pj raw req m d =
          some (parse_structured_output parsed req m d raw)
        ∧ (parse_structured_output parsed req m d raw).meta.parse_warnings = none)
  ∧ (∀ (pj : String → Option Json) (raw : String) (req : VisionRequest)
        (m : String) (d : Nat) (a b : Nat) (parsed : Json),
        pj raw = none →
        strFind raw '\x7b' = some a →
        strRFind raw '\x7d' = some b →
        a < b →
        pj (String.mk ((raw.toList.drop a).take (b + 1 - a))) = some parsed →
        rustSliceInc raw a b = some (String.mk ((raw.toList.drop a).take (b + 1 - a)))
        ∧ parse_vision_output pj raw req m d =
            some (parse_structured_output parsed req m d raw)
        ∧ (parse_structured_output parsed req m d raw).meta.parse_warnings = none)
  ∧ Option.map VisionResponse.text_blocks
      (parse_vision_output
        (fun s =>
          if s = "\x7b\"text_blocks\":[\x7b\"text\":\"hi\",\"confidence\":0.9\x7d]\x7d" then
            some (Json.obj [("text_blocks",
              Json.arr [Json.obj [("text", Json.str "hi"),
                ("confidence", Json.float (9 / 10))]])])
          else none)
        "Sure! \x7b\"text_blocks\":[\x7b\"text\":\"hi\",\"confidence\":0.9\x7d]\x7d Thanks."
        { image_base64 := none, url := none, mode := "ocr", model := none,
          timeout_ms := none, raw := none, license := none }
        "m" 0) =
      some [{ text := "hi", confidence := some (9 / 10) }] := by
  refine ⟨?_, ?_, ?_⟩
  · intro pj raw req m d parsed h
    unfold parse_vision_output
    rw [h]
    exact ⟨rfl, rfl⟩
  · intro pj raw req m d a b parsed hraw ha hb hab hsub
    have hlen : b < raw.toList.length := strRFind_lt_length hb
    have hslice : rustSliceInc raw a b =
        some (String.mk ((raw.toList.drop a).take (b + 1 - a))) := by
      unfold rustSliceInc
      rw [if_pos]
      exact ⟨by omega, by omega⟩
    refine ⟨hslice, ?_, rfl⟩
    unfold parse_vision_output
    rw [hraw, ha, hb]
    dsimp only
    rw [hslice]
    dsimp only
    rw [hsub]
  · rfl

/-- Witness for parse_vision_output_tiers: tier 1 on a parser that accepts
the input as the JSON null value. -/
theorem parse_vision_output_tiers_witness :
    parse_vision_output (fun _ => some Json.null) "null"
      { image_base64 := none, url := none, mode := "full", model := none,
        timeout_ms := none, raw := none, license := none } "m" 7 =
      some (parse_structured_output Json.null
        { image_base64 := none, url := none, mode := "full", model := none,
          timeout_ms := none, raw := none, license := none } "m" 7 "null")
    ∧ (parse_structured_output Json.null
        { image_base64 := none, url := none, mode := "full", model := none,
          timeout_ms := none, raw := none, license := none } "m" 7 "null").meta.parse_warnings
      = none :=
  parse_vision_output_tiers.1 _ "null" _ "m" 7 Json.null rfl

/-- Claim C8: a dom_map element is kept exactly when it has a string tag and
a position rectangle with numeric x, y, width and height; an element
lacking a valid position is dropped entirely, and malformed array elements
are dropped individually while the rest of the response decodes. -/
theorem dom_map_position_filtering :
    (∀ item : Json, (decodeDomElement item).isSome ↔
        (((item.jget "tag").bind Json.as_str).isSome ∧
          ((item.jget "position").bind decodeRect).isSome))
  ∧ (∀ p : Json, (decodeRect p).isSome ↔
        (((p.jget "x").bind Json.as_f64).isSome ∧
          ((p.jget "y").bind Json.as_f64).isSome ∧
          ((p.jget "width").bind Json.as_f64).isSome ∧
          ((p.jget "height").bind Json.as_f64).isSome))
  ∧ (∀ (parsed : Json) (req : VisionRequest) (m : String) (d : Nat) (raw : String)
        (arr : List Json),
        parsed.jget "dom_map" = some (Json.arr arr) →
        (parse_structured_output parsed req m d raw).dom_map =
          some (arr.filterMap decodeDomElement))
  ∧ List.filterMap decodeDomElement
      [Json.obj [("tag", Json.str "div"),
        ("position", Json.obj [("x", Json.posInt 1), ("y", Json.posInt 2),
          ("width", Json.posInt 3), ("height", Json.posInt 4)])],
       Json.obj [("tag", Json.str "span")],
       Json.obj [("tag", Json.str "p"),
        ("position", Json.obj [("x", Json.posInt 1), ("y", Json.posInt 2),
          ("width", Json.posInt 3), ("height", Json.str "tall")])],
       Json.str "junk"] =
      [{ tag := "div", id := none, «class» := none, text := none,
         position := { x := 1, y := 2, width := 3, height := 4 }, attributes := [] }] := by
  refine ⟨?_, ?_, ?_, ?_⟩
  · intro item
    unfold decodeDomElement
    rcases h1 : (item.jget "tag").bind Json.as_str with _ | t
    · simp
    · rcases h2 : (item.jget "position").bind decodeRect with _ | r <;> simp [h2]
  · intro p
    unfold decodeRect
    rcases h1 : (p.jget "x").bind Json.as_f64 with _ | x
    · simp
    · rcases h2 : (p.jget "y").bind Json.as_f64 with _ | y
      · simp
      · rcases h3 : (p.jget "width").bind Json.as_f64 with _ | w
        · simp
        · rcases h4 : (p.jget "height").bind Json.as_f64 with _ | hgt <;> simp [h4]
  · intro parsed req m d raw arr h
    simp [parse_structured_output, h, Json.as_array]
  · decide

/-- Witness for dom_map_position_filtering: an input whose dom_map is an
empty array decodes to an empty (but present) dom_map. -/
theorem dom_map_position_filtering_witness :
    (parse_structured_output (Json.obj [("dom_map", Json.arr [])])
      { image_base64 := none, url := none, mode := "web", model := none,
        timeout_ms := none, raw := none, license := none } "m" 0 "raw").dom_map =
      some (List.filterMap decodeDomElement []) :=
  dom_map_position_filtering.2.2.1 _ _ "m" 0 "raw" [] rfl

lemma contains_of_shape (x y z w : String) :
    ∃ p q, x ++ (y ++ z) ++ w = p ++ z ++ q :=
  ⟨x ++ y, w, by rw [← String.append_assoc]⟩

/-- Claim C9: prepare_vision_prompt is a pure function of its arguments; for
the ocr, layout and web modes the built prompt contains the mode's JSON
shape hint, and every mode string other than ocr, layout, brief and web
produces exactly the full-mode prompt. -/
theorem prepare_vision_prompt_modes :
    (∀ (w h : Nat) (m : String), ∃ p q,
        prepare_vision_prompt "ocr" w h m = p ++ ocrHint ++ q)
  ∧ (∀ (w h : Nat) (m : String), ∃ p q,
        prepare_vision_prompt "layout" w h m = p ++ layoutHint ++ q)
  ∧ (∀ (w h : Nat) (m : String), ∃ p q,
        prepare_vision_prompt "web" w h m = p ++ webHint ++ q)
  ∧ (∀ (mode : String) (w h : Nat) (m : String),
        mode ≠ "ocr" → mode ≠ "layout" → mode ≠ "brief" → mode ≠ "web" →
        prepare_vision_prompt mode w h m = prepare_vision_prompt "full" w h m) := by
  refine ⟨?_, ?_, ?_, ?_⟩
  · intro w h m
    unfold prepare_vision_prompt
    rw [show analysis_task "ocr" = "Extract all visible text from the image. Return JSON: " ++ ocrHint from rfl]
    by_cases hc : strContains m.toLower "llava"
    · rw [if_pos hc]; exact contains_of_shape _ _ _ _
    · rw [if_neg hc]; exact contains_of_shape _ _ _ _
  · intro w h m
    unfold prepare_vision_prompt
    rw [show analysis_task "layout" = "Analyze the layout and structure. Return JSON: " ++ layoutHint from rfl]
    by_cases hc : strContains m.toLower "llava"
    · rw [if_pos hc]; exact contains_of_shape _ _ _ _
    · rw [if_neg hc]; exact contains_of_shape _ _ _ _
  · intro w h m
    unfold prepare_vision_prompt
    rw [show analysis_task "web" = "Analyze as web page screenshot. Return JSON: " ++ webHint from rfl]
    by_cases hc : strContains m.toLower "llava"
    · rw [if_pos hc]; exact contains_of_shape _ _ _ _
    · rw [if_neg hc]; exact contains_of_shape _ _ _ _
  · intro mode w h m h1 h2 h3 h4
    have htask : analysis_task mode = fullTask := by
      unfold analysis_task
      simp [h1, h2, h3, h4]
    unfold prepare_vision_prompt
    rw [htask, show analysis_task "full" = fullTask from rfl]

/-- Witness for prepare_vision_prompt_modes: an unrecognized mode string
builds the full-mode prompt. -/
theorem prepare_vision_prompt_modes_witness :
    prepare_vision_prompt "potato" 640 480 "minicpm-v" =
      prepare_vision_prompt "full" 640 480 "minicpm-v" :=
  prepare_vision_prompt_modes.2.2.2 "potato" 640 480 "minicpm-v"
    (by decide) (by decide) (by decide) (by decide)

lemma process_state_after_metering (env : VisionEnv) (req : VisionRequest) (m : String)
    (st st1 : LicenseState) (b : Bool)
    (hdev : env.dev_mode = false)
    (hgate : check_vision_access env.dev_mode env.lic st req.license = (.ok (), st1, b)) :
    ∀ out st', process_vision_request env req m st = some (out, st') →
      st' = (record_usage env.lic st1).2 := by
  intro out st' h
  rw [hdev] at hgate
  unfold process_vision_request at h
  rw [hdev] at h
  simp only [Bool.false_eq_true, if_false] at h
  rw [hgate] at h
  dsimp only at h
  rcases hrec : record_usage env.lic st1 with ⟨r, st2⟩
  rw [hrec] at h
  dsimp only
  rcases r with e | u
  · dsimp only at h
    simp at h
    exact h.2.symm
  · dsimp only at h
    repeat' split at h
    all_goals simp_all

/-- Claim C6 (counterexample): a request that passes the license gate but
provides neither image source fails with the input error, yet the usage
counters have already been incremented (and persisted) by the time the
failure is reported — the source meters immediately after the gate, before
any image work. -/
theorem process_failed_request_counts_usage_cx :
    process_vision_request
      { dev_mode := false
        lic := { now := 0, remote := fun _ => .error "unused", disk_write_ok := true,
                 usage_write_ok := true, parse_rfc3339 := fun _ => none }
        decode_base64 := fun _ => .error "no"
        fetch_url := fun _ => .error "no"
        decode_image := fun _ => none
        ollama_has := fun _ => false
        registry_has := fun _ => false
        load_result := .ok ()
        generate := fun _ => .failed "x"
        json_dec := fun _ => none
        elapsed_ms := 0 }
      { image_base64 := none, url := none, mode := "full", model := none,
        timeout_ms := none, raw := none, license := some "k" }
      "m"
      { mem := some
          { key := "k"
            validation := { valid := true, entitlements := [("vision", Json.bool true)],
                            expires_at := none, meta := [] }
            cached_at := 0
            expires_at := none }
        disk := none
        usage := { requests_today := 5, requests_this_month := 7, last_reset := 0 }
        usage_disk := none } =
      some (.error (.msg "Either image_base64 or url must be provided"),
        { mem := some
            { key := "k"
              validation := { valid := true, entitlements := [("vision", Json.bool true)],
                              expires_at := none, meta := [] }
              cached_at := 0
              expires_at := none }
          disk := none
          usage := { requests_today := 6, requests_this_month := 8, last_reset := 0 }
          usage_disk := some { requests_today := 6, requests_this_month := 8, last_reset := 0 } })
    ∧ ({ requests_today := 6, requests_this_month := 8, last_reset := 0 } : UsageStats) ≠
        { requests_today := 5, requests_this_month := 7, last_reset := 0 } :=
  ⟨rfl, by decide⟩

/-- Claim C6 (amended): outside dev mode the usage counters are mutated
exactly once per request that passes the license gate — immediately after
the gate and before any image work, so requests that fail later still
count; a request rejected by the gate leaves the counters and their disk
copy untouched; after the metering step the in-memory counters equal
record_usage_counters of the prior counters (each incremented by one,
modulo the fixed-window resets), and the disk copy is updated whenever the
stats write succeeds. -/
theorem usage_metering_after_gate :
    (∀ (env : VisionEnv) (req : VisionRequest) (m : String) (st : LicenseState)
        (e : VisionLicenseError),
        env.dev_mode = false →
        (check_vision_access env.dev_mode env.lic st req.license).1 = .error e →
        process_vision_request env req m st =
          some (.error (.license e), (check_vision_access env.dev_mode env.lic st req.license).2.1)
        ∧ (check_vision_access env.dev_mode env.lic st req.license).2.1.usage = st.usage
        ∧ (check_vision_access env.dev_mode env.lic st req.license).2.1.usage_disk =
            st.usage_disk)
  ∧ (∀ (env : VisionEnv) (req : VisionRequest) (m : String) (st st1 : LicenseState)
        (b : Bool) (out : Except PipelineError VisionResponse) (st' : LicenseState),
        env.dev_mode = false →
        check_vision_access env.dev_mode env.lic st req.license = (.ok (), st1, b) →
        process_vision_request env req m st = some (out, st') →
        st'.usage = record_usage_counters env.lic.now st.usage
        ∧ (env.lic.usage_write_ok = true →
            st'.usage_disk = some (record_usage_counters env.lic.now st.usage)))
  ∧ (∀ (now : Int) (u : UsageStats),
        tdiv86400 (now - u.last_reset) < 1 →
        record_usage_counters now u =
          { u with requests_today := u.requests_today + 1,
                   requests_this_month := u.requests_this_month + 1 })
  ∧ (∀ (now : Int) (u : UsageStats),
        (record_usage_counters now u).requests_this_month =
          (if tdiv86400 (now - u.last_reset) ≥ 30 then 0 else u.requests_this_month) + 1) := by
  refine ⟨?_, ?_, ?_, ?_⟩
  · intro env req m st e hdev hgate
    rcases hc : check_vision_access env.dev_mode env.lic st req.license with ⟨r, st1, bb⟩
    rw [hc] at hgate
    simp only at hgate
    subst hgate
    have husage := check_vision_access_usage env.dev_mode env.lic st req.license
    rw [hc] at husage
    refine ⟨?_, husage.1, husage.2⟩
    unfold process_vision_request
    rw [hdev]
    simp only [Bool.false_eq_true, if_false]
    rw [hdev] at hc
    rw [hc]
  · intro env req m st st1 b out st' hdev hgate hrun
    have hst' := process_state_after_metering env req m st st1 b hdev hgate out st' hrun
    have husage := check_vision_access_usage env.dev_mode env.lic st req.license
    rw [hgate] at husage
    rcases husage with ⟨hu, _⟩
    subst hst'
    unfold record_usage
    by_cases hw : env.lic.usage_write_ok
    · simp only [hw, if_true]
      exact ⟨by rw [hu], fun _ => by rw [hu]⟩
    · simp only [hw, Bool.false_eq_true, if_false]
      refine ⟨by rw [hu], fun hww => hww.elim⟩
  · intro now u h1
    have h30 : ¬(tdiv86400 (now - u.last_reset) ≥ 30) := by omega
    have h1' : ¬(tdiv86400 (now - u.last_reset) ≥ 1) := by omega
    simp [record_usage_counters, h1', h30]
  · intro now u
    unfold record_usage_counters
    by_cases h1 : tdiv86400 (now - u.last_reset) ≥ 1 <;>
      by_cases h30 : tdiv86400 (now - u.last_reset) ≥ 30 <;>
        simp [h1, h30]

/-- Witness for usage_metering_after_gate: with no elapsed window both
counters advance by exactly one. -/
theorem usage_metering_after_gate_witness :
    record_usage_counters 0 { requests_today := 5, requests_this_month := 7, last_reset := 0 } =
      { requests_today := 6, requests_this_month := 8, last_reset := 0 } :=
  usage_metering_after_gate.2.2.1 0
    { requests_today := 5, requests_this_month := 7, last_reset := 0 } (by decide)

/-- Claim C7 (counterexample): a request carrying both an inline base64
image and a URL is accepted and fully processed — the base64 source is
used, even though the configured URL fetch would fail — contradicting the
claim that a request providing both sources is not accepted as valid
input. -/
theorem both_sources_accepted_cx :
    process_vision_request
      { dev_mode := false
        lic := { now := 0, remote := fun _ => .error "unused", disk_write_ok := true,
                 usage_write_ok := true, parse_rfc3339 := fun _ => none }
        decode_base64 := fun _ => .ok [1]
        fetch_url := fun _ => .error "unfetchable url"
        decode_image := fun _ => some (10, 10)
        ollama_has := fun _ => true
        registry_has := fun _ => true
        load_result := .ok ()
        generate := fun _ => .ok "out"
        json_dec := fun _ => none
        elapsed_ms := 0 }
      { image_base64 := some "IMG", url := some "http://example.com/a.png", mode := "full",
        model := none, timeout_ms := none, raw := none, license := some "k" }
      "m"
      { mem := some
          { key := "k"
            validation := { valid := true, entitlements := [("vision", Json.bool true)],
                            expires_at := none, meta := [] }
            cached_at := 0
            expires_at := none }
        disk := none
        usage := { requests_today := 0, requests_this_month := 0, last_reset := 0 }
        usage_disk := none } =
      some (.ok (fallback_response "out"
        { image_base64 := some "IMG", url := some "http://example.com/a.png", mode := "full",
          model := none, timeout_ms := none, raw := none, license := some "k" } "m" 0),
        { mem := some
            { key := "k"
              validation := { valid := true, entitlements := [("vision", Json.bool true)],
                              expires_at := none, meta := [] }
              cached_at := 0
              expires_at := none }
          disk := none
          usage := { requests_today := 1, requests_this_month := 1, last_reset := 0 }
          usage_disk := some { requests_today := 1, requests_this_month := 1, last_reset := 0 } }) :=
  rfl

/-- Claim C7 (amended): the pipeline enforces at entry that at least one
image source is present — a request with neither source fails with the
request-level input error right after metering, for every configuration of
the image-stage collaborators (no image work is consulted); when both
sources are present the base64 source takes precedence: the outcome is
the same for every URL-fetch function, so the URL is never fetched. -/
theorem missing_source_rejected_at_entry :
    (∀ (env : VisionEnv) (req : VisionRequest) (m : String) (st st1 : LicenseState) (b : Bool),
        env.dev_mode = false →
        req.image_base64 = none → req.url = none →
        check_vision_access env.dev_mode env.lic st req.license = (.ok (), st1, b) →
        env.lic.usage_write_ok = true →
        process_vision_request env req m st =
          some (.error (.msg "Either image_base64 or url must be provided"),
            (record_usage env.lic st1).2))
  ∧ (∀ (env : VisionEnv) (f : String → Except String (List Nat)) (req : VisionRequest)
        (m : String) (st : LicenseState) (b64 : String),
        req.image_base64 = some b64 →
        process_vision_request { env with fetch_url := f } req m st =
          process_vision_request env req m st) := by
  constructor
  · intro env req m st st1 b hdev hb64 hurl hgate hw
    rw [hdev] at hgate
    unfold process_vision_request
    rw [hdev]
    simp only [Bool.false_eq_true, if_false]
    rw [hgate]
    dsimp only
    unfold record_usage
    simp only [hw, if_true]
    rw [hb64, hurl]
  · intro env f req m st b64 hb64
    unfold process_vision_request
    rw [hb64]

/-- Witness for missing_source_rejected_at_entry: replacing the URL-fetch
function is invisible when an inline base64 image is supplied. -/
theorem missing_source_rejected_at_entry_witness :
    process_vision_request
      { dev_mode := true
        lic := { now := 0, remote := fun _ => .error "unused", disk_write_ok := true,
                 usage_write_ok := true, parse_rfc3339 := fun _ => none }
        decode_base64 := fun _ => .ok [1]
        fetch_url := fun _ => .error "swapped in"
        decode_image := fun _ => some (10, 10)
        ollama_has := fun _ => true
        registry_has := fun _ => true
        load_result := .ok ()
        generate := fun _ => .ok "out"
        json_dec := fun _ => none
        elapsed_ms := 0 }
      { image_base64 := some "IMG", url := none, mode := "brief",
        model := none, timeout_ms := none, raw := none, license := none }
      "m"
      { mem := none, disk := none
        usage := { requests_today := 0, requests_this_month := 0, last_reset := 0 }
        usage_disk := none } =
    process_vision_request
      { dev_mode := true
        lic := { now := 0, remote := fun _ => .error "unused", disk_write_ok := true,
                 usage_write_ok := true, parse_rfc3339 := fun _ => none }
        decode_base64 := fun _ => .ok [1]
        fetch_url := fun _ => .error "original"
        decode_image := fun _ => some (10, 10)
        ollama_has := fun _ => true
        registry_has := fun _ => true
        load_result := .ok ()
        generate := fun _ => .ok "out"
        json_dec := fun _ => none
        elapsed_ms := 0 }
      { image_base64 := some "IMG", url := none, mode := "brief",
        model := none, timeout_ms := none, raw := none, license := none }
      "m"
      { mem := none, disk := none
        usage := { requests_today := 0, requests_this_month := 0, last_reset := 0 }
        usage_disk := none } :=
  missing_source_rejected_at_entry.2
    { dev_mode := true
      lic := { now := 0, remote := fun _ => .error "unused", disk_write_ok := true,
               usage_write_ok := true, parse_rfc3339 := fun _ => none }
      decode_base64 := fun _ => .ok [1]
      fetch_url := fun _ => .error "original"
      decode_image := fun _ => some (10, 10)
      ollama_has := fun _ => true
      registry_has := fun _ => true
      load_result := .ok ()
      generate := fun _ => .ok "out"
      json_dec := fun _ => none
      elapsed_ms := 0 }
    (fun _ => .error "swapped in")
    { image_base64 := some "IMG", url := none, mode := "brief",
      model := none, timeout_ms := none, raw := none, license := none }
    "m"
    { mem := none, disk := none
      usage := { requests_today := 0, requests_this_month := 0, last_reset := 0 }
      usage_disk := none }
    "IMG" rfl

lemma natFloor_sqrt (x : ℝ) (hx : 0 ≤ x) : ⌊Real.sqrt x⌋₊ = Nat.sqrt ⌊x⌋₊ := by
  rw [Nat.floor_eq_iff (Real.sqrt_nonneg x)]
  constructor
  · calc ((Nat.sqrt ⌊x⌋₊ : ℕ) : ℝ) ≤ Real.sqrt ((⌊x⌋₊ : ℕ) : ℝ) :=
        Real.nat_sqrt_le_real_sqrt
      _ ≤ Real.sqrt x := Real.sqrt_le_sqrt (Nat.floor_le hx)
  · rw [Real.sqrt_lt' (by positivity)]
    have h1 : x < (⌊x⌋₊ : ℝ) + 1 := Nat.lt_floor_add_one x
    have h2 : ⌊x⌋₊ < (Nat.sqrt ⌊x⌋₊ + 1) ^ 2 := by
      have := Nat.lt_succ_sqrt' ⌊x⌋₊
      simpa [Nat.succ_eq_add_one] using this
    have h3 : (⌊x⌋₊ + 1 : ℕ) ≤ (Nat.sqrt ⌊x⌋₊ + 1) ^ 2 := h2
    have h3' : ((⌊x⌋₊ : ℕ) : ℝ) + 1 ≤ (((Nat.sqrt ⌊x⌋₊ : ℕ) : ℝ) + 1) ^ 2 := by
      exact_mod_cast h3
    linarith [h1, h3']

lemma natFloor_mul_sqrt_div (d m p : ℕ) (hp : 0 < p) :
    ⌊(d : ℝ) * Real.sqrt ((m : ℝ) / (p : ℝ))⌋₊ = Nat.sqrt (d * d * m / p) := by
  have h1 : (d : ℝ) * Real.sqrt ((m : ℝ) / (p : ℝ)) =
      Real.sqrt (((d * d * m : ℕ) : ℝ) / (p : ℝ)) := by
    rw [show (((d * d * m : ℕ) : ℝ) / (p : ℝ)) =
        ((d : ℝ) * (d : ℝ)) * ((m : ℝ) / (p : ℝ)) by push_cast; ring]
    rw [Real.sqrt_mul (by positivity) ((m : ℝ) / (p : ℝ)),
      Real.sqrt_mul_self (by positivity : (0 : ℝ) ≤ (d : ℝ))]
  rw [h1, natFloor_sqrt _ (by positivity)]
  congr 1
  exact Nat.floor_div_eq_div (d * d * m) p

lemma ratRound_eq_real (q : Rat) : ratRound q = ⌊(q : ℝ) + 1 / 2⌋ := by
  unfold ratRound
  rw [show ((q : ℝ) + 1 / 2) = (((q + 1 / 2 : Rat)) : ℝ) by push_cast; ring]
  rw [Rat.floor_cast]

lemma ratRound_div_cast (a b c : Nat) :
    ratRound ((a : Rat) * (b : Rat) / (c : Rat)) =
      ⌊(a : ℝ) * (b : ℝ) / (c : ℝ) + 1 / 2⌋ := by
  rw [ratRound_eq_real]
  congr 1
  push_cast
  ring

/-- Claim C5: an image within both budgets passes through unresized; when
the long edge exceeds the cap, the originally-long dimension becomes the
cap and the short one round(short * cap / long) floored at 1; when the
pixel count then exceeds the budget, each dimension becomes
floor(dim * sqrt(budget / pixels)) floored at 1 (the f32/f64 arithmetic of
the source idealized as exact real arithmetic); and every successfully
returned image satisfies width * height ≤ max_pixels — otherwise
preprocessing fails. -/
theorem preprocess_image_dimension_policy :
    (∀ (decode : List Nat → Option (Nat × Nat)) (data : List Nat) (cfg : PreprocessConfig)
        (w h : Nat), decode data = some (w, h) →
        max w h ≤ cfg.max_long_edge → w * h ≤ cfg.max_pixels →
        preprocess_image decode data cfg = .ok { width := w, height := h, resized := false })
  ∧ (∀ (cfg : PreprocessConfig) (w h : Nat), max w h > cfg.max_long_edge →
        (w ≥ h → clampLongEdge w h cfg =
          (cfg.max_long_edge,
            (max ⌊(h : ℝ) * (cfg.max_long_edge : ℝ) / (w : ℝ) + 1 / 2⌋ 1).toNat))
        ∧ (w < h → clampLongEdge w h cfg =
          ((max ⌊(w : ℝ) * (cfg.max_long_edge : ℝ) / (h : ℝ) + 1 / 2⌋ 1).toNat,
            cfg.max_long_edge)))
  ∧ (∀ (tw th maxp : Nat), tw * th > maxp →
        clampPixels tw th maxp =
          (max ⌊(tw : ℝ) * Real.sqrt ((maxp : ℝ) / ((tw * th : Nat) : ℝ))⌋₊ 1,
            max ⌊(th : ℝ) * Real.sqrt ((maxp : ℝ) / ((tw * th : Nat) : ℝ))⌋₊ 1))
  ∧ (∀ (decode : List Nat → Option (Nat × Nat)) (data : List Nat) (cfg : PreprocessConfig)
        (img : PreprocessedImage),
        preprocess_image decode data cfg = .ok img →
        img.width * img.height ≤ cfg.max_pixels) := by
  refine ⟨?_, ?_, ?_, ?_⟩
  · intro decode data cfg w h hdec hlong hpx
    have h1 : clampLongEdge w h cfg = (w, h) := by
      unfold clampLongEdge
      rw [if_neg (by omega)]
    have h2 : clampPixels w h cfg.max_pixels = (w, h) := by
      unfold clampPixels
      dsimp only
      rw [if_neg (by omega)]
    unfold preprocess_image
    rw [hdec]
    simp [h1, h2, show ¬(w * h > cfg.max_pixels) by omega]
  · intro cfg w h hlong
    constructor
    · intro hwh
      unfold clampLongEdge
      rw [if_pos hlong, if_pos hwh, ratRound_div_cast h cfg.max_long_edge w]
    · intro hwh
      unfold clampLongEdge
      rw [if_pos hlong, if_neg (by omega), ratRound_div_cast w cfg.max_long_edge h]
  · intro tw th maxp hgt
    unfold clampPixels
    dsimp only
    rw [if_pos hgt]
    have hp : 0 < tw * th := by omega
    rw [natFloor_mul_sqrt_div tw maxp (tw * th) hp,
      natFloor_mul_sqrt_div th maxp (tw * th) hp]
  · intro decode data cfg img h
    unfold preprocess_image at h
    rcases hdec : decode data with _ | wh
    · rw [hdec] at h; simp at h
    · rw [hdec] at h
      dsimp only at h
      split at h
      · exact absurd h (by simp)
      · rename_i hguard
        simp only [Except.ok.injEq] at h
        subst h
        dsimp only
        omega

/-- Witness for preprocess_image_dimension_policy: a 100 x 50 image under
the pipeline defaults is returned unresized. -/
theorem preprocess_image_dimension_policy_witness :
    preprocess_image (fun _ => some (100, 50)) []
      { max_long_edge := 640, max_pixels := 1500000, jpeg_quality := 80 } =
      .ok { width := 100, height := 50, resized := false } :=
  preprocess_image_dimension_policy.1 (fun _ => some (100, 50)) []
    { max_long_edge := 640, max_pixels := 1500000, jpeg_quality := 80 } 100 50 rfl
    (by decide) (by decide)
